import Mathlib

/-!
Verification of the pdf2image HTTP conversion service core
(`services.py`, `config.py`, `exceptions.py`, `main.py`).

The rasterization engine (`pdf2image.convert_from_bytes`), the metadata
engine (`pdfinfo_from_bytes`) and the PIL image encoder are external
collaborators; they are modelled as opaque parameters (an abstract page
type `Image`, an abstract encoder `pilSave`, and an explicit engine
outcome).  Everything else — validation, the orchestration of the
storage/mode matrix, filename and URL construction, base64 encoding,
the error mapping, and the endpoint's page counting — is translated
from the source.

Byte sequences are `List Nat` (each element a byte value).
-/

/-- A domain error as raised by `exceptions.PDF2ImageException`:
a human message plus a machine error code string. -/
structure DomainError where
  message : String
  error_code : String
deriving Repr, DecidableEq

/-- The failure modes of the external rasterization / inspection engine
(`pdf2image.exceptions`): `PDFInfoNotInstalledError`, `PDFPageCountError`,
`PDFSyntaxError`, `PDFPopplerTimeoutError`, or any other exception. -/
inductive EngineError where
  | infoNotInstalled : EngineError
  | pageCountError (msg : String) : EngineError
  | parseError (msg : String) : EngineError
  | popplerTimeout (msg : String) : EngineError
  | otherError (msg : String) : EngineError
deriving Repr, DecidableEq

/-- Output image format (`models.ConversionRequest.fmt`, a `Literal`). -/
inductive Fmt where
  | jpeg | png | ppm | tiff
deriving Repr, DecidableEq

/-- The string value carried by a `Fmt` literal. -/
def fmtStr : Fmt → String
  | .jpeg => "jpeg"
  | .png => "png"
  | .ppm => "ppm"
  | .tiff => "tiff"

/-- Storage type literal (`base64`, `file`, `both`). -/
inductive StorageType where
  | base64 | file | both
deriving Repr, DecidableEq

/-- Image return mode literal (`base64`, `path`). -/
inductive ImageMode where
  | base64 | path
deriving Repr, DecidableEq

/-- JPEG encoder options (`jpegopt`), a mapping of encoder knobs. -/
def JpegOpt : Type := List (String × String)

instance : DecidableEq JpegOpt := by
  unfold JpegOpt
  infer_instance

/-- `models.ConversionRequest` with pydantic defaults. -/
structure ConversionRequest where
  dpi : Nat := 200
  first_page : Option Nat := none
  last_page : Option Nat := none
  fmt : Fmt := .png
  grayscale : Bool := false
  transparent : Bool := false
  thread_count : Nat := 1
  use_pdftocairo : Bool := false
  timeout : Nat := 600
  size : Option Nat := none
  jpegopt : Option JpegOpt := none
  storage_type : StorageType := .base64
  image_mode : ImageMode := .base64
deriving DecidableEq

/-- The fields of `config.Config` the core reads, with their defaults. -/
structure Config where
  OUTPUT_STORAGE_TYPE : StorageType := .file
  OUTPUT_DIR : String := "/tmp/pdf2image_output"
  OUTPUT_BASE_URL : String := "http://localhost:8000/files"
  MAX_FILE_SIZE : Nat := 50 * 1024 * 1024
  POPPLER_PATH : Option String := none
deriving DecidableEq

/-- Python truthiness of an optional mapping (`if jpegopt:`):
`None` and the empty mapping are falsy. -/
def optTruthy : Option JpegOpt → Bool
  | none => false
  | some l => !(List.isEmpty l)

/-- Python truthiness of an optional string (`if prefix:`). -/
def strTruthy : Option String → Bool
  | none => false
  | some s => !s.isEmpty

/-- Python truthiness of an optional list (`if base64_images:`):
`None` and `[]` are falsy. -/
def listTruthy : Option (List String) → Bool
  | none => false
  | some l => !(List.isEmpty l)

/-- The PDF magic header `b'%PDF-'` as byte values. -/
def pdfMagic : List Nat := [0x25, 0x50, 0x44, 0x46, 0x2D]

/-- `PDFConverterService.validate_pdf_file` (services.py lines 32-43):
empty → `EMPTY_FILE`; over the configured maximum → `FILE_TOO_LARGE`
with the limit in MiB in the message; missing `%PDF-` header →
`INVALID_PDF_FORMAT`; otherwise success.  Pure, no side effects. -/
def validate_pdf_file (pdf_data : List Nat) (maxFileSize : Nat) :
    Except DomainError Unit :=
  if pdf_data.length = 0 then
    .error ⟨"文件为空", "EMPTY_FILE"⟩
  else if pdf_data.length > maxFileSize then
    .error ⟨"文件大小超过限制 (" ++ toString (maxFileSize / (1024 * 1024)) ++ "MB)",
            "FILE_TOO_LARGE"⟩
  else if pdfMagic.isPrefixOf pdf_data then
    .ok ()
  else
    .error ⟨"不是有效的PDF文件", "INVALID_PDF_FORMAT"⟩

/-- C4: for every byte sequence, `validate` fails `EMPTY_FILE` on empty
input (this check takes precedence over all others); otherwise fails
`FILE_TOO_LARGE` when the length exceeds the configured maximum, with
the limit in MiB in the message, regardless of header validity;
otherwise fails `INVALID_PDF_FORMAT` when the first 5 bytes are not the
ASCII `%PDF-`; otherwise succeeds (pure function, so no side effects). -/
theorem validate_pdf_file_spec (b : List Nat) (maxFileSize : Nat) :
    (b.length = 0 →
      validate_pdf_file b maxFileSize = .error ⟨"文件为空", "EMPTY_FILE"⟩)
    ∧ (b.length ≠ 0 → b.length > maxFileSize →
      validate_pdf_file b maxFileSize =
        .error ⟨"文件大小超过限制 (" ++ toString (maxFileSize / (1024 * 1024)) ++ "MB)",
                "FILE_TOO_LARGE"⟩)
    ∧ (b.length ≠ 0 → b.length ≤ maxFileSize → ¬ pdfMagic.isPrefixOf b →
      validate_pdf_file b maxFileSize = .error ⟨"不是有效的PDF文件", "INVALID_PDF_FORMAT"⟩)
    ∧ (b.length ≠ 0 → b.length ≤ maxFileSize → pdfMagic.isPrefixOf b →
      validate_pdf_file b maxFileSize = .ok ()) := by
  refine ⟨fun h0 => ?_, fun h0 hlen => ?_, fun h0 hlen hmagic => ?_, fun h0 hlen hmagic => ?_⟩
  · simp [validate_pdf_file, h0]
  · simp [validate_pdf_file, h0, hlen]
  · simp [validate_pdf_file, h0, Nat.not_lt.mpr hlen, hmagic]
  · simp [validate_pdf_file, h0, Nat.not_lt.mpr hlen, hmagic]

/-- Witness for C4: concrete evaluations of all four branches of
`validate_pdf_file_spec` (empty; oversized with a bad header, showing
size takes precedence over the header check and the 2 MiB limit appears
in the message; short non-PDF bytes; and a well-formed header). -/
theorem validate_pdf_file_spec_witness :
    validate_pdf_file [] 100 = .error ⟨"文件为空", "EMPTY_FILE"⟩
    ∧ validate_pdf_file [0x00, 0x01, 0x02] 2 =
        .error ⟨"文件大小超过限制 (0MB)", "FILE_TOO_LARGE"⟩
    ∧ validate_pdf_file [0x00, 0x01, 0x02] 100 =
        .error ⟨"不是有效的PDF文件", "INVALID_PDF_FORMAT"⟩
    ∧ validate_pdf_file [0x25, 0x50, 0x44, 0x46, 0x2D, 0x31] 100 = .ok () := by
  refine ⟨(validate_pdf_file_spec [] 100).1 (by decide), ?_, ?_, ?_⟩
  · exact (validate_pdf_file_spec [0x00, 0x01, 0x02] 2).2.1
      (by decide) (by decide)
  · exact (validate_pdf_file_spec [0x00, 0x01, 0x02] 100).2.2.1
      (by decide) (by decide) (by decide)
  · exact (validate_pdf_file_spec [0x25, 0x50, 0x44, 0x46, 0x2D, 0x31] 100).2.2.2
      (by decide) (by decide) (by decide)

/-- The standard base64 alphabet, as used by `base64.b64encode`. -/
def b64alphabet : List Char :=
  "ABCDEFGHIJKLMNOPQRSTUVWXYZabcdefghijklmnopqrstuvwxyz0123456789+/".toList

/-- The base64 character for a 6-bit value. -/
def b64char (n : Nat) : Char := b64alphabet.getD n 'A'

/-- The 6-bit value of a base64 character. -/
def b64index (c : Char) : Nat := b64alphabet.indexOf c

/-- `base64.b64encode` on a byte list: 3 bytes become 4 alphabet
characters; a trailing group of 1 or 2 bytes is padded with `=`. -/
def b64chunks : List Nat → List Char
  | [] => []
  | [b1] => [b64char (b1 / 4), b64char (b1 % 4 * 16), '=', '=']
  | [b1, b2] =>
    [b64char (b1 / 4), b64char (b1 % 4 * 16 + b2 / 16), b64char (b2 % 16 * 4), '=']
  | b1 :: b2 :: b3 :: rest =>
    b64char (b1 / 4) :: b64char (b1 % 4 * 16 + b2 / 16) ::
      b64char (b2 % 16 * 4 + b3 / 64) :: b64char (b3 % 64) :: b64chunks rest

/-- `base64.b64decode` on a character list, honouring `=` padding. -/
def b64dchunks : List Char → List Nat
  | c1 :: c2 :: c3 :: c4 :: rest =>
    if c3 = '=' then
      [b64index c1 * 4 + b64index c2 / 16]
    else if c4 = '=' then
      [b64index c1 * 4 + b64index c2 / 16, b64index c2 % 16 * 16 + b64index c3 / 4]
    else
      (b64index c1 * 4 + b64index c2 / 16) ::
        (b64index c2 % 16 * 16 + b64index c3 / 4) ::
        (b64index c3 % 4 * 64 + b64index c4) :: b64dchunks rest
  | _ => []

/-- `base64.b64encode(data).decode('utf-8')`: the base64 string. -/
def b64encodeStr (bs : List Nat) : String := ⟨b64chunks bs⟩

/-- Base64 decoding of a string into bytes. -/
def b64decodeStr (s : String) : List Nat := b64dchunks s.data

/-- The alphabet inverts its own indexing on 6-bit values. -/
theorem b64index_b64char : ∀ n < 64, b64index (b64char n) = n := by decide

/-- Alphabet characters are never the padding character. -/
theorem b64char_ne_pad : ∀ n < 64, b64char n ≠ '=' := by decide

/-- Base64 decoding inverts encoding on genuine byte lists. -/
theorem b64_roundtrip :
    ∀ bs : List Nat, (∀ b ∈ bs, b < 256) → b64dchunks (b64chunks bs) = bs
  | [], _ => rfl
  | [b1], h => by
    have h1 : b1 < 256 := h b1 (by simp)
    have e1 := b64index_b64char (b1 / 4) (by omega)
    have e2 := b64index_b64char (b1 % 4 * 16) (by omega)
    simp only [b64chunks, b64dchunks, if_true, e1, e2, List.cons.injEq, and_true]
    omega
  | [b1, b2], h => by
    have h1 : b1 < 256 := h b1 (by simp)
    have h2 : b2 < 256 := h b2 (by simp)
    have e1 := b64index_b64char (b1 / 4) (by omega)
    have e2 := b64index_b64char (b1 % 4 * 16 + b2 / 16) (by omega)
    have e3 := b64index_b64char (b2 % 16 * 4) (by omega)
    have n3 := b64char_ne_pad (b2 % 16 * 4) (by omega)
    simp only [b64chunks, b64dchunks, if_neg n3, if_true, e1, e2, e3,
      List.cons.injEq, and_true]
    omega
  | b1 :: b2 :: b3 :: rest, h => by
    have h1 : b1 < 256 := h b1 (by simp)
    have h2 : b2 < 256 := h b2 (by simp)
    have h3 : b3 < 256 := h b3 (by simp)
    have ih := b64_roundtrip rest (fun b hb =>
      h b (List.mem_cons_of_mem _ (List.mem_cons_of_mem _ (List.mem_cons_of_mem _ hb))))
    have e1 := b64index_b64char (b1 / 4) (by omega)
    have e2 := b64index_b64char (b1 % 4 * 16 + b2 / 16) (by omega)
    have e3 := b64index_b64char (b2 % 16 * 4 + b3 / 64) (by omega)
    have e4 := b64index_b64char (b3 % 64) (by omega)
    have n3 := b64char_ne_pad (b2 % 16 * 4 + b3 / 64) (by omega)
    have n4 := b64char_ne_pad (b3 % 64) (by omega)
    simp only [b64chunks, b64dchunks, if_neg n3, if_neg n4, e1, e2, e3, e4, ih,
      List.cons.injEq]
    refine ⟨by omega, by omega, by omega, trivial⟩

/-- String-level base64 round trip. -/
theorem b64decodeStr_b64encodeStr (bs : List Nat) (h : ∀ b ∈ bs, b < 256) :
    b64decodeStr (b64encodeStr bs) = bs := by
  simpa [b64encodeStr, b64decodeStr] using b64_roundtrip bs h

/-- ASCII `str.upper` — `String.toUpper` written over the character
list so that it evaluates by reduction. -/
def strToUpper (s : String) : String := ⟨s.data.map Char.toUpper⟩

/-- ASCII `str.lower` — `String.toLower` written over the character
list so that it evaluates by reduction. -/
def strToLower (s : String) : String := ⟨s.data.map Char.toLower⟩

/-- `str.endswith` written over the character lists. -/
def strEndsWith (s suf : String) : Bool := suf.data.isSuffixOf s.data

/-- `str.rstrip('/')`, as used by `Config.get_file_url`. -/
def rstripSlash (s : String) : String :=
  ⟨(s.data.reverse.dropWhile (fun c => c == '/')).reverse⟩

/-- `Config.get_file_url` (config.py lines 44-47): join the base URL,
trailing slashes stripped, with the filename. -/
def get_file_url (cfg : Config) (filename : String) : String :=
  rstripSlash cfg.OUTPUT_BASE_URL ++ "/" ++ filename

/-- `pathlib.Path.parent`: the path with its final component removed. -/
def parentDir (p : String) : String :=
  match p.data.reverse.dropWhile (fun c => !(c == '/')) with
  | [] => "."
  | _ :: rest => if rest.isEmpty then "/" else ⟨rest.reverse⟩

/-- The stem of a file name: the name with its extension removed
(`pathlib` treats a lone leading dot as part of the name, not as the
start of a suffix). -/
def nameStem (name : List Char) : List Char :=
  match name.reverse.dropWhile (fun c => !(c == '.')) with
  | [] => name
  | _ :: rest => if rest.isEmpty then name else rest.reverse

/-- `pathlib.Path.with_suffix`: replace the extension of the final path
component. -/
def withSuffix (p : String) (suf : String) : String :=
  ⟨(p.data.reverse.dropWhile (fun c => !(c == '/'))).reverse
    ++ nameStem (p.data.reverse.takeWhile (fun c => !(c == '/'))).reverse
    ++ suf.data⟩

/-- `PDFConverterService.generate_filename` (services.py lines 45-52):
`[<prefix>_]page_<index+1>_<timestamp>_<unique id>.<fmt>`, the prefix
used only when truthy. -/
def generate_filename (page_index : Nat) (fmtS : String) (pfx : Option String)
    (timestamp unique_id : String) : String :=
  if strTruthy pfx then
    pfx.getD "" ++ "_page_" ++ toString (page_index + 1) ++ "_" ++ timestamp ++ "_"
      ++ unique_id ++ "." ++ fmtS
  else
    "page_" ++ toString (page_index + 1) ++ "_" ++ timestamp ++ "_" ++ unique_id
      ++ "." ++ fmtS

/-- Filesystem effects of a call: directories created (`mkdir`) and
files written, in order. -/
structure FsEffects where
  dirs : List String
  writes : List (String × List Nat)
deriving DecidableEq

/-- Result of `save_image_to_file`: the path it returns plus the
filesystem effects it performs. -/
structure SaveOut where
  returnedPath : String
  dirs : List String
  writes : List (String × List Nat)
deriving DecidableEq

/-- `PDFConverterService.save_image_to_file` (services.py lines 54-76):
create the parent directory, uppercase the format, rename the target to
`.png` and encode as PNG when the format is PPM, apply jpeg options
only when the format is `jpeg` and the options are truthy, then write
the encoded image.  `pilSave` stands for the opaque `PIL.Image.save`
encoder, mapping an image, a save format and the extra options to the
encoded bytes. -/
def save_image_to_file {Image : Type}
    (pilSave : Image → String → Option JpegOpt → List Nat)
    (image : Image) (filepath : String) (fmtS : String)
    (jpegopt : Option JpegOpt) : SaveOut :=
  let save_format := strToUpper fmtS
  let target := if save_format == "PPM" then withSuffix filepath ".png" else filepath
  let save_format' := if save_format == "PPM" then "PNG" else save_format
  let kwargs := if fmtS == "jpeg" && optTruthy jpegopt then jpegopt else none
  ⟨target, [parentDir filepath], [(target, pilSave image save_format' kwargs)]⟩

/-- Accumulated results of the file-persistence loop in
`convert_pdf_to_images` (services.py lines 191-204): public URLs, the
per-page `filepath` values (surfaced when `image_mode == 'path'`), and
the filesystem effects. -/
structure FileLoopOut where
  urls : List String
  paths : List String
  dirs : List String
  writes : List (String × List Nat)
deriving DecidableEq

/-- The file-persistence loop of `convert_pdf_to_images`: for the page
at index `i`, generate a filename (with the per-page timestamp `ts i`
and unique suffix `uid i`), save the image under the output directory,
and record the public URL and the original (pre-save) file path. -/
def fileLoop {Image : Type}
    (pilSave : Image → String → Option JpegOpt → List Nat)
    (cfg : Config) (fmtS : String) (jpegopt : Option JpegOpt)
    (pfx : Option String) (ts uid : Nat → String) :
    Nat → List Image → FileLoopOut
  | _, [] => ⟨[], [], [], []⟩
  | i, image :: rest =>
    let filename := generate_filename i fmtS pfx (ts i) (uid i)
    let filepath := cfg.OUTPUT_DIR ++ "/" ++ filename
    let sv := save_image_to_file pilSave image filepath fmtS jpegopt
    let r := fileLoop pilSave cfg fmtS jpegopt pfx ts uid (i + 1) rest
    ⟨get_file_url cfg filename :: r.urls, filepath :: r.paths,
      sv.dirs ++ r.dirs, sv.writes ++ r.writes⟩

/-- The `(base64_images, file_urls)` pair returned by
`convert_pdf_to_images`. -/
structure ConvertResult where
  base64_images : Option (List String)
  file_urls : Option (List String)
deriving DecidableEq

/-- The in-memory page encoding of the `image_mode == 'base64'` branch
of `convert_pdf_to_images` (services.py lines 159-176): uppercase the
format, treat PPM as PNG, apply jpeg options when the format is jpeg
and the options are truthy, encode via the opaque `PIL` encoder, and
base64-encode the bytes. -/
def encodePageBase64 {Image : Type}
    (pilSave : Image → String → Option JpegOpt → List Nat)
    (fmtS : String) (jpegopt : Option JpegOpt) (image : Image) : String :=
  let save_format := strToUpper fmtS
  let save_format' := if save_format == "PPM" then "PNG" else save_format
  let kwargs := if fmtS == "jpeg" && optTruthy jpegopt then jpegopt else none
  b64encodeStr (pilSave image save_format' kwargs)

/-- `PDFConverterService.convert_pdf_to_images` (services.py lines
104-217).  The engine invocation (`convert_from_bytes`) is opaque, so
its outcome is the `engineResult` parameter; `ts`/`uid` supply the
per-page timestamp and unique suffix drawn inside `generate_filename`.
Returns the `(base64_images, file_urls)` pair (or the mapped domain
error) together with the filesystem effects performed.  The function's
trailing `except Exception` clause catches its own
`PDF2ImageException`s raised inside the `try` block — in particular
validation failures — and re-raises them as
`ConversionFailedException(f"PDF转换失败: {str(e)}")`. -/
def convert_pdf_to_images {Image : Type}
    (pilSave : Image → String → Option JpegOpt → List Nat)
    (pdf_data : List Nat) (request : ConversionRequest) (pfx : Option String)
    (ts uid : Nat → String) (engineResult : Except EngineError (List Image))
    (cfg : Config) : Except DomainError ConvertResult × FsEffects :=
  match validate_pdf_file pdf_data cfg.MAX_FILE_SIZE with
  | .error e =>
    (.error ⟨"PDF转换失败: " ++ e.message, "CONVERSION_FAILED"⟩, ⟨[], []⟩)
  | .ok _ =>
    match engineResult with
    | .error .infoNotInstalled =>
      (.error ⟨"Poppler工具未正确安装，请安装poppler-utils", "POPPLER_NOT_INSTALLED"⟩,
        ⟨[], []⟩)
    | .error (.pageCountError m) =>
      (.error ⟨"PDF页面计数错误: " ++ m, "PDF_CORRUPTED"⟩, ⟨[], []⟩)
    | .error (.parseError m) =>
      (.error ⟨"PDF语法错误: " ++ m, "PDF_CORRUPTED"⟩, ⟨[], []⟩)
    | .error (.popplerTimeout _) =>
      (.error ⟨"PDF转换超时，请尝试减少页面数量或增加超时时间", "CONVERSION_FAILED"⟩,
        ⟨[], []⟩)
    | .error (.otherError m) =>
      (.error ⟨"PDF转换失败: " ++ m, "CONVERSION_FAILED"⟩, ⟨[], []⟩)
    | .ok images =>
      let fmtS := fmtStr request.fmt
      let base64_images : Option (List String) :=
        if request.storage_type = .base64 ∨ request.storage_type = .both then
          if request.image_mode = .base64 then
            some (images.map (encodePageBase64 pilSave fmtS request.jpegopt))
          else if images.isEmpty then some [] else none
        else none
      if request.storage_type = .file ∨ request.storage_type = .both then
        let fl := fileLoop pilSave cfg fmtS request.jpegopt pfx ts uid 0 images
        let b0 := if request.image_mode = .path ∧ listTruthy base64_images = false
          then some [] else base64_images
        let b1 := if request.image_mode = .path
          then some (b0.getD [] ++ fl.paths) else b0
        (.ok ⟨b1, some fl.urls⟩, ⟨cfg.OUTPUT_DIR :: fl.dirs, fl.writes⟩)
      else
        (.ok ⟨base64_images, none⟩, ⟨[], []⟩)

/-- The fixed field set of `get_pdf_info` /
`models.PDFInfoResponse`. -/
structure PDFInfo where
  pages : Option String
  title : Option String
  subject : Option String
  author : Option String
  creator : Option String
  producer : Option String
  creation_date : Option String
  modification_date : Option String
deriving Repr, DecidableEq

/-- `PDFConverterService.get_pdf_info` (services.py lines 219-255).
The inspection engine (`pdfinfo_from_bytes`) is opaque: a successful
inspection is the key/value mapping it returns, and `dict.get` maps
missing keys to `none`.  The `except` chain here has no
`PDFPageCountError` and no timeout clause, so those engine failures
fall to the generic wrap, as does a validation failure raised inside
the `try` block. -/
def get_pdf_info (pdf_data : List Nat)
    (infoResult : Except EngineError (List (String × String)))
    (cfg : Config) : Except DomainError PDFInfo :=
  match validate_pdf_file pdf_data cfg.MAX_FILE_SIZE with
  | .error e =>
    .error ⟨"获取PDF信息失败: " ++ e.message, "CONVERSION_FAILED"⟩
  | .ok _ =>
    match infoResult with
    | .error .infoNotInstalled =>
      .error ⟨"Poppler工具未正确安装，请安装poppler-utils", "POPPLER_NOT_INSTALLED"⟩
    | .error (.parseError m) =>
      .error ⟨"PDF语法错误: " ++ m, "PDF_CORRUPTED"⟩
    | .error (.pageCountError m) =>
      .error ⟨"获取PDF信息失败: " ++ m, "CONVERSION_FAILED"⟩
    | .error (.popplerTimeout m) =>
      .error ⟨"获取PDF信息失败: " ++ m, "CONVERSION_FAILED"⟩
    | .error (.otherError m) =>
      .error ⟨"获取PDF信息失败: " ++ m, "CONVERSION_FAILED"⟩
    | .ok info =>
      .ok ⟨info.lookup "Pages", info.lookup "Title", info.lookup "Subject",
           info.lookup "Author", info.lookup "Creator", info.lookup "Producer",
           info.lookup "CreationDate", info.lookup "ModDate"⟩

/-- The observable outcome of the HTTP GET performed by
`download_pdf_from_url`: a response (status, raw content-type header,
body bytes), a timeout, or another transport-level error. -/
inductive FetchOutcome where
  | response (status : Nat) (contentType : String) (body : List Nat)
  | timeout
  | transportError (msg : String)

/-- `PDFConverterService.download_pdf_from_url` (services.py lines
78-101).  `raise_for_status` raises `HTTPStatusError` for any non-2xx
status; on success the PDF sniff rejects exactly when the lowercased
content type lacks `application/pdf`, the lowercased URL does not end
in `.pdf`, and the body lacks the `%PDF-` magic; that inner
`ConversionFailedException` is caught by the function's own generic
`except Exception` clause and re-wrapped. -/
def download_pdf_from_url (url : String) (outcome : FetchOutcome) :
    Except DomainError (List Nat) :=
  match outcome with
  | .timeout => .error ⟨"下载PDF文件超时", "CONVERSION_FAILED"⟩
  | .transportError m => .error ⟨"下载PDF文件失败: " ++ m, "CONVERSION_FAILED"⟩
  | .response status contentType body =>
    if ¬ (200 ≤ status ∧ status ≤ 299) then
      .error ⟨"下载PDF文件失败: HTTP " ++ toString status, "CONVERSION_FAILED"⟩
    else if ¬ ("application/pdf".toList <:+: (strToLower contentType).toList)
        ∧ ¬ (strEndsWith (strToLower url) ".pdf") ∧ ¬ (pdfMagic.isPrefixOf body) then
      .error ⟨"下载PDF文件失败: URL返回的不是有效的PDF文件", "CONVERSION_FAILED"⟩
    else
      .ok body

/-- The page count computed by the `/convert` endpoint (main.py line
157): `len(base64_images) if base64_images else len(file_urls) if
file_urls else 0`, with Python truthiness (`None` and `[]` falsy). -/
def pages_count (base64_images file_urls : Option (List String)) : Nat :=
  if listTruthy base64_images then (base64_images.getD []).length
  else if listTruthy file_urls then (file_urls.getD []).length
  else 0


/-- A concrete stand-in for the opaque encoder, used by the closed
evaluations: pages are bare naturals and every page encodes to the
given fixed byte list. -/
def natPilSave (bytes : List Nat) : Nat → String → Option JpegOpt → List Nat :=
  fun _ _ _ => bytes

set_option maxRecDepth 10000

/-- The file loop emits one public URL per page, in ascending page
order, built from the page's generated filename. -/
theorem fileLoop_urls {Image : Type}
    (pilSave : Image → String → Option JpegOpt → List Nat)
    (cfg : Config) (fmtS : String) (jo : Option JpegOpt) (pfx : Option String)
    (ts uid : Nat → String) :
    ∀ (imgs : List Image) (i : Nat),
      (fileLoop pilSave cfg fmtS jo pfx ts uid i imgs).urls
        = (List.enumFrom i imgs).map
            (fun p => get_file_url cfg (generate_filename p.1 fmtS pfx (ts p.1) (uid p.1)))
  | [], _ => rfl
  | image :: rest, i => by
    simp [fileLoop, List.enumFrom_cons,
      fileLoop_urls pilSave cfg fmtS jo pfx ts uid rest (i + 1)]

/-- The file loop records one (pre-save) file path per page, in
ascending page order. -/
theorem fileLoop_paths {Image : Type}
    (pilSave : Image → String → Option JpegOpt → List Nat)
    (cfg : Config) (fmtS : String) (jo : Option JpegOpt) (pfx : Option String)
    (ts uid : Nat → String) :
    ∀ (imgs : List Image) (i : Nat),
      (fileLoop pilSave cfg fmtS jo pfx ts uid i imgs).paths
        = (List.enumFrom i imgs).map
            (fun p => cfg.OUTPUT_DIR ++ "/" ++ generate_filename p.1 fmtS pfx (ts p.1) (uid p.1))
  | [], _ => rfl
  | image :: rest, i => by
    simp [fileLoop, List.enumFrom_cons,
      fileLoop_paths pilSave cfg fmtS jo pfx ts uid rest (i + 1)]

/-- The bytes written by the file loop are, per page in order, exactly
the opaque encoder's output under the normalized format (PPM encoded as
PNG) and the effective jpeg options. -/
theorem fileLoop_writes_snd {Image : Type}
    (pilSave : Image → String → Option JpegOpt → List Nat)
    (cfg : Config) (fmtS : String) (jo : Option JpegOpt) (pfx : Option String)
    (ts uid : Nat → String) :
    ∀ (imgs : List Image) (i : Nat),
      ((fileLoop pilSave cfg fmtS jo pfx ts uid i imgs).writes).map Prod.snd
        = imgs.map (fun image => pilSave image
            (if strToUpper fmtS == "PPM" then "PNG" else strToUpper fmtS)
            (if fmtS == "jpeg" && optTruthy jo then jo else none))
  | [], _ => rfl
  | image :: rest, i => by
    simp [fileLoop, save_image_to_file,
      fileLoop_writes_snd pilSave cfg fmtS jo pfx ts uid rest (i + 1)]

/-- `pages_count` with only the inline channel present. -/
theorem pages_count_some_none (l : List String) :
    pages_count (some l) none = l.length := by
  cases l <;> simp [pages_count, listTruthy]

/-- `pages_count` with only the URL channel present. -/
theorem pages_count_none_some (m : List String) :
    pages_count none (some m) = m.length := by
  cases m <;> simp [pages_count, listTruthy]

/-- `pages_count` with both channels present and of equal length. -/
theorem pages_count_some_some (l m : List String) (h : l.length = m.length) :
    pages_count (some l) (some m) = l.length := by
  cases l <;> cases m <;> simp_all [pages_count, listTruthy]

/-- C1: the claim fails on the code.  At the empty input, the
validator's `EMPTY_FILE` failure is NOT propagated unchanged by
`convert_pdf_to_images`: the orchestrator's final
`except Exception` clause catches its own `PDF2ImageException` and
re-raises it as `ConversionFailedException(f"PDF转换失败: {str(e)}")`,
so the caller sees kind `CONVERSION_FAILED` and a prefixed message. -/
theorem convert_rewraps_validation_failure :
    (convert_pdf_to_images (natPilSave [0])
        ([] : List Nat) {} none (fun _ => "ts") (fun _ => "id") (.ok []) {}).1
      = .error ⟨"PDF转换失败: 文件为空", "CONVERSION_FAILED"⟩ := rfl

/-- C2: the claim fails on the code.  For `fmt = ppm` with file
persistence, the page IS saved as PNG under a `.png` name
(`save_image_to_file` rewrites its local path), but the caller ignores
the returned path: the public URL and the inline path surfaced in
`path` mode are built from the ORIGINAL `.ppm` filename, so they refer
to a file that does not exist on disk. -/
theorem convert_ppm_surfaces_ppm_name :
    ((convert_pdf_to_images (natPilSave [1, 2, 3])
        pdfMagic { fmt := .ppm, storage_type := .file, image_mode := .path } none
        (fun _ => "20240101_000000") (fun _ => "abcd1234") (.ok [0]) {}).1
      = .ok ⟨some ["/tmp/pdf2image_output/page_1_20240101_000000_abcd1234.ppm"],
             some ["http://localhost:8000/files/page_1_20240101_000000_abcd1234.ppm"]⟩)
    ∧ ((convert_pdf_to_images (natPilSave [1, 2, 3])
        pdfMagic { fmt := .ppm, storage_type := .file, image_mode := .path } none
        (fun _ => "20240101_000000") (fun _ => "abcd1234") (.ok [0]) {}).2.writes
      = [("/tmp/pdf2image_output/page_1_20240101_000000_abcd1234.png", [1, 2, 3])]) :=
  ⟨rfl, rfl⟩

/-- C3: counterexample to the claim as stated.  For a valid 1-page PDF
with no page range restriction under the combination
`storage_type = base64, image_mode = path`, the orchestrator returns
neither output channel, and the endpoint's `pages_count` is 0, not the
page count 1. -/
theorem convert_base64_path_count_cex :
    ((convert_pdf_to_images (natPilSave [1]) pdfMagic
        { storage_type := .base64, image_mode := .path } none
        (fun _ => "t") (fun _ => "u") (.ok [0]) {}).1 = .ok ⟨none, none⟩)
    ∧ pages_count none none ≠ ([0] : List Nat).length :=
  ⟨rfl, by decide⟩

/-- C3 (amended): for every valid N-page PDF converted with no page
range restriction, under every `(storage_type, image_mode)` combination
EXCEPT `(base64, path)`, the conversion succeeds, `pages_count` equals
N, and each requested output sequence (`base64_images` under the
matrix, `file_urls` whenever storage includes file persistence) has
exactly N entries in ascending page order; in the `(base64, path)`
combination both channels are absent and `pages_count` is 0. -/
theorem convert_counts_amended {Image : Type}
    (pilSave : Image → String → Option JpegOpt → List Nat)
    (pdf : List Nat) (request : ConversionRequest) (pfx : Option String)
    (ts uid : Nat → String) (images : List Image) (cfg : Config)
    (hv : validate_pdf_file pdf cfg.MAX_FILE_SIZE = .ok ())
    (_hfp : request.first_page = none) (_hlp : request.last_page = none)
    (hgap : ¬ (request.storage_type = .base64 ∧ request.image_mode = .path)) :
    ∃ r : ConvertResult,
      (convert_pdf_to_images pilSave pdf request pfx ts uid (.ok images) cfg).1 = .ok r
      ∧ pages_count r.base64_images r.file_urls = images.length
      ∧ (request.storage_type = .file ∨ request.storage_type = .both →
          r.file_urls = some ((List.enumFrom 0 images).map
            (fun p => get_file_url cfg
              (generate_filename p.1 (fmtStr request.fmt) pfx (ts p.1) (uid p.1)))))
      ∧ (request.storage_type = .base64 → r.file_urls = none)
      ∧ (request.image_mode = .base64 →
          (request.storage_type = .base64 ∨ request.storage_type = .both →
            r.base64_images = some (images.map
              (encodePageBase64 pilSave (fmtStr request.fmt) request.jpegopt)))
          ∧ (request.storage_type = .file → r.base64_images = none))
      ∧ (request.image_mode = .path →
          r.base64_images = some ((List.enumFrom 0 images).map
            (fun p => cfg.OUTPUT_DIR ++ "/"
              ++ generate_filename p.1 (fmtStr request.fmt) pfx (ts p.1) (uid p.1)))) := by
  rcases hst : request.storage_type with _ | _ | _ <;>
    rcases him : request.image_mode with _ | _
  · refine ⟨⟨some (images.map (encodePageBase64 pilSave (fmtStr request.fmt) request.jpegopt)),
      none⟩, ?_, ?_, ?_, ?_, ?_, ?_⟩
    · simp [convert_pdf_to_images, hv, hst, him]
    · simp [pages_count_some_none]
    · simp
    · simp
    · intro _; exact ⟨fun _ => rfl, by simp [hst]⟩
    · intro h; exact absurd h (by simp)
  · exact absurd ⟨hst, him⟩ hgap
  · refine ⟨⟨none, some ((List.enumFrom 0 images).map
      (fun p => get_file_url cfg
        (generate_filename p.1 (fmtStr request.fmt) pfx (ts p.1) (uid p.1))))⟩,
      ?_, ?_, ?_, ?_, ?_, ?_⟩
    · simp [convert_pdf_to_images, hv, hst, him, fileLoop_urls]
    · simp [pages_count_none_some]
    · simp
    · simp [hst]
    · intro _; exact ⟨by simp [hst], fun _ => rfl⟩
    · intro h; exact absurd h (by simp)
  · refine ⟨⟨some ((List.enumFrom 0 images).map
        (fun p => cfg.OUTPUT_DIR ++ "/"
          ++ generate_filename p.1 (fmtStr request.fmt) pfx (ts p.1) (uid p.1))),
      some ((List.enumFrom 0 images).map
        (fun p => get_file_url cfg
          (generate_filename p.1 (fmtStr request.fmt) pfx (ts p.1) (uid p.1))))⟩,
      ?_, ?_, ?_, ?_, ?_, ?_⟩
    · simp [convert_pdf_to_images, hv, hst, him, fileLoop_urls, fileLoop_paths, listTruthy]
    · rw [pages_count_some_some] <;> simp
    · simp
    · simp [hst]
    · intro h; exact absurd h (by simp)
    · intro _; rfl
  · refine ⟨⟨some (images.map (encodePageBase64 pilSave (fmtStr request.fmt) request.jpegopt)),
      some ((List.enumFrom 0 images).map
        (fun p => get_file_url cfg
          (generate_filename p.1 (fmtStr request.fmt) pfx (ts p.1) (uid p.1))))⟩,
      ?_, ?_, ?_, ?_, ?_, ?_⟩
    · simp [convert_pdf_to_images, hv, hst, him, fileLoop_urls]
    · rw [pages_count_some_some] <;> simp
    · simp
    · simp [hst]
    · intro _; exact ⟨fun _ => rfl, by simp [hst]⟩
    · intro h; exact absurd h (by simp)
  · refine ⟨⟨some ((List.enumFrom 0 images).map
        (fun p => cfg.OUTPUT_DIR ++ "/"
          ++ generate_filename p.1 (fmtStr request.fmt) pfx (ts p.1) (uid p.1))),
      some ((List.enumFrom 0 images).map
        (fun p => get_file_url cfg
          (generate_filename p.1 (fmtStr request.fmt) pfx (ts p.1) (uid p.1))))⟩,
      ?_, ?_, ?_, ?_, ?_, ?_⟩
    · cases images <;>
        simp [convert_pdf_to_images, hv, hst, him, fileLoop_urls, fileLoop_paths, listTruthy]
    · rw [pages_count_some_some] <;> simp
    · simp
    · simp [hst]
    · intro h; exact absurd h (by simp)
    · intro _; rfl

/-- Witness for the amended C3: a concrete 1-page conversion under
`(both, base64)` succeeds with `pages_count = 1`. -/
theorem convert_counts_amended_witness :
    ∃ r : ConvertResult,
      (convert_pdf_to_images (natPilSave [1]) pdfMagic
        { storage_type := .both, image_mode := .base64 } none
        (fun _ => "t") (fun _ => "u") (.ok [0]) {}).1 = .ok r
      ∧ pages_count r.base64_images r.file_urls = 1 := by
  obtain ⟨r, hr, hc, _⟩ := convert_counts_amended (natPilSave [1])
    pdfMagic { storage_type := .both, image_mode := .base64 } none
    (fun _ => "t") (fun _ => "u") [0] {} rfl rfl rfl (by simp)
  exact ⟨r, hr, hc⟩

/-- C5: for every successful conversion of a (nonempty) page sequence
with `storage_type = base64` and `image_mode = path`,
`convert_pdf_to_images` returns with the inline channel absent (no
fabricated payload) and `file_urls` absent — the combination yields
neither output channel. -/
theorem convert_base64_path_yields_neither {Image : Type}
    (pilSave : Image → String → Option JpegOpt → List Nat)
    (pdf : List Nat) (request : ConversionRequest) (pfx : Option String)
    (ts uid : Nat → String) (images : List Image) (cfg : Config)
    (hv : validate_pdf_file pdf cfg.MAX_FILE_SIZE = .ok ())
    (hst : request.storage_type = .base64) (him : request.image_mode = .path)
    (hne : images ≠ []) :
    (convert_pdf_to_images pilSave pdf request pfx ts uid (.ok images) cfg).1
      = .ok ⟨none, none⟩ := by
  cases images with
  | nil => exact absurd rfl hne
  | cons a as => simp [convert_pdf_to_images, hv, hst, him]

/-- Witness for C5: a concrete 1-page conversion under
`(base64, path)` returns `(none, none)`. -/
theorem convert_base64_path_yields_neither_witness :
    (convert_pdf_to_images (natPilSave [1]) pdfMagic
      { storage_type := .base64, image_mode := .path } none
      (fun _ => "t") (fun _ => "u") (.ok [0]) {}).1 = .ok ⟨none, none⟩ :=
  convert_base64_path_yields_neither (natPilSave [1]) pdfMagic
    { storage_type := .base64, image_mode := .path } none (fun _ => "t") (fun _ => "u")
    [0] {} rfl rfl rfl (by simp)

/-- C6: after validation passes, every engine failure maps to exactly
one domain error kind: tool-not-installed → `POPPLER_NOT_INSTALLED`;
page-count determination failure → `PDF_CORRUPTED`; syntax/structural
parse error → `PDF_CORRUPTED`; rendering timeout → `CONVERSION_FAILED`
with the timeout-specific message; any other engine exception →
`CONVERSION_FAILED` wrapping the raw message. -/
theorem convert_engine_failure_mapping {Image : Type}
    (pilSave : Image → String → Option JpegOpt → List Nat)
    (pdf : List Nat) (request : ConversionRequest) (pfx : Option String)
    (ts uid : Nat → String) (cfg : Config)
    (hv : validate_pdf_file pdf cfg.MAX_FILE_SIZE = .ok ()) :
    ((convert_pdf_to_images pilSave pdf request pfx ts uid
        (.error .infoNotInstalled) cfg).1
      = .error ⟨"Poppler工具未正确安装，请安装poppler-utils", "POPPLER_NOT_INSTALLED"⟩)
    ∧ (∀ m, (convert_pdf_to_images pilSave pdf request pfx ts uid
        (.error (.pageCountError m)) cfg).1
      = .error ⟨"PDF页面计数错误: " ++ m, "PDF_CORRUPTED"⟩)
    ∧ (∀ m, (convert_pdf_to_images pilSave pdf request pfx ts uid
        (.error (.parseError m)) cfg).1
      = .error ⟨"PDF语法错误: " ++ m, "PDF_CORRUPTED"⟩)
    ∧ (∀ m, (convert_pdf_to_images pilSave pdf request pfx ts uid
        (.error (.popplerTimeout m)) cfg).1
      = .error ⟨"PDF转换超时，请尝试减少页面数量或增加超时时间", "CONVERSION_FAILED"⟩)
    ∧ (∀ m, (convert_pdf_to_images pilSave pdf request pfx ts uid
        (.error (.otherError m)) cfg).1
      = .error ⟨"PDF转换失败: " ++ m, "CONVERSION_FAILED"⟩) := by
  refine ⟨?_, fun m => ?_, fun m => ?_, fun m => ?_, fun m => ?_⟩ <;>
    simp [convert_pdf_to_images, hv]

/-- Witness for C6: a concrete unclassified engine exception is wrapped
as `CONVERSION_FAILED` with the raw message. -/
theorem convert_engine_failure_mapping_witness :
    (convert_pdf_to_images (natPilSave [1]) pdfMagic {} none
      (fun _ => "t") (fun _ => "u") (.error (.otherError "boom")) {}).1
      = .error ⟨"PDF转换失败: boom", "CONVERSION_FAILED"⟩ :=
  (convert_engine_failure_mapping (natPilSave [1]) pdfMagic {} none
    (fun _ => "t") (fun _ => "u") {} rfl).2.2.2.2 "boom"

/-- C10: for every conversion request with `storage_type = base64`
(either image mode, any validation or engine outcome),
`convert_pdf_to_images` performs no filesystem effects: no directory is
created and no page file is written. -/
theorem convert_base64_storage_no_fs_effects {Image : Type}
    (pilSave : Image → String → Option JpegOpt → List Nat)
    (pdf : List Nat) (request : ConversionRequest) (pfx : Option String)
    (ts uid : Nat → String) (engineResult : Except EngineError (List Image))
    (cfg : Config) (hst : request.storage_type = .base64) :
    (convert_pdf_to_images pilSave pdf request pfx ts uid engineResult cfg).2
      = ⟨[], []⟩ := by
  cases hval : validate_pdf_file pdf cfg.MAX_FILE_SIZE with
  | error e => simp [convert_pdf_to_images, hval]
  | ok u =>
    cases engineResult with
    | error e => cases e <;> simp [convert_pdf_to_images, hval]
    | ok images => simp [convert_pdf_to_images, hval, hst]

/-- Witness for C10: a concrete successful base64-storage conversion
performs no filesystem effects. -/
theorem convert_base64_storage_no_fs_effects_witness :
    (convert_pdf_to_images (natPilSave [1]) pdfMagic
      { storage_type := .base64 } none (fun _ => "t") (fun _ => "u")
      (.ok [0]) {}).2 = ⟨[], []⟩ :=
  convert_base64_storage_no_fs_effects (natPilSave [1]) pdfMagic
    { storage_type := .base64 } none (fun _ => "t") (fun _ => "u") (.ok [0]) {} rfl

/-- C9: for every PDF whose inspection succeeds, `get_pdf_info` returns
exactly the fixed eight-field set, each field read off the engine's
mapping by key; a key the engine omits becomes `none` rather than
causing a failure. -/
theorem get_pdf_info_field_mapping (pdf : List Nat) (d : List (String × String))
    (cfg : Config) (hv : validate_pdf_file pdf cfg.MAX_FILE_SIZE = .ok ()) :
    get_pdf_info pdf (.ok d) cfg
      = .ok ⟨d.lookup "Pages", d.lookup "Title", d.lookup "Subject", d.lookup "Author",
             d.lookup "Creator", d.lookup "Producer", d.lookup "CreationDate",
             d.lookup "ModDate"⟩ := by
  simp [get_pdf_info, hv]

/-- Witness for C9: a concrete inspection result with no `Author` key
(and most fields missing) succeeds with `author = none`. -/
theorem get_pdf_info_field_mapping_witness :
    get_pdf_info pdfMagic (.ok [("Pages", "3"), ("Title", "T")]) {}
      = .ok ⟨some "3", some "T", none, none, none, none, none, none⟩ := by
  rw [get_pdf_info_field_mapping pdfMagic [("Pages", "3"), ("Title", "T")] {} rfl]
  rfl

/-- C8: for every rendered page, format and jpeg options (with the
opaque encoder producing genuine bytes), the bytes obtained by
base64-decoding the page's inline payload equal the bytes persisted to
the page's file: under `storage_type = both, image_mode = base64` the
written contents, in page order, are exactly the base64-decoded inline
payloads — the two delivery channels never diverge in content. -/
theorem convert_channels_agree {Image : Type}
    (pilSave : Image → String → Option JpegOpt → List Nat)
    (pdf : List Nat) (request : ConversionRequest) (pfx : Option String)
    (ts uid : Nat → String) (images : List Image) (cfg : Config)
    (hbytes : ∀ (image : Image) (f : String) (jo : Option JpegOpt),
      ∀ b ∈ pilSave image f jo, b < 256)
    (hv : validate_pdf_file pdf cfg.MAX_FILE_SIZE = .ok ())
    (hst : request.storage_type = .both) (him : request.image_mode = .base64) :
    ∃ inl urls,
      (convert_pdf_to_images pilSave pdf request pfx ts uid (.ok images) cfg).1
        = .ok ⟨some inl, some urls⟩
      ∧ ((convert_pdf_to_images pilSave pdf request pfx ts uid
          (.ok images) cfg).2.writes).map Prod.snd
        = inl.map b64decodeStr := by
  refine ⟨images.map (encodePageBase64 pilSave (fmtStr request.fmt) request.jpegopt),
    (fileLoop pilSave cfg (fmtStr request.fmt) request.jpegopt pfx ts uid 0 images).urls,
    ?_, ?_⟩
  · simp [convert_pdf_to_images, hv, hst, him]
  · have hw : (convert_pdf_to_images pilSave pdf request pfx ts uid
        (.ok images) cfg).2.writes
      = (fileLoop pilSave cfg (fmtStr request.fmt) request.jpegopt pfx
          ts uid 0 images).writes := by
      simp [convert_pdf_to_images, hv, hst, him]
    rw [hw, fileLoop_writes_snd, List.map_map]
    refine List.map_congr_left (fun image _ => ?_)
    simp only [Function.comp_apply, encodePageBase64,
      b64decodeStr_b64encodeStr _ (hbytes image _ _)]

/-- Witness for C8: a concrete 1-page conversion under
`(both, base64)` whose single write decodes from the single inline
payload. -/
theorem convert_channels_agree_witness :
    ∃ inl urls,
      (convert_pdf_to_images (natPilSave [1, 2, 3]) pdfMagic
        { storage_type := .both, image_mode := .base64 } none
        (fun _ => "t") (fun _ => "u") (.ok [0]) {}).1 = .ok ⟨some inl, some urls⟩
      ∧ ((convert_pdf_to_images (natPilSave [1, 2, 3]) pdfMagic
        { storage_type := .both, image_mode := .base64 } none
        (fun _ => "t") (fun _ => "u") (.ok [0]) {}).2.writes).map Prod.snd
        = inl.map b64decodeStr :=
  convert_channels_agree (natPilSave [1, 2, 3]) pdfMagic
    { storage_type := .both, image_mode := .base64 } none (fun _ => "t") (fun _ => "u")
    [0] {} (fun _ _ _ b hb => by simp [natPilSave] at hb; omega) rfl rfl rfl

/-- C7: for every URL fetch: a non-2xx HTTP status fails
`CONVERSION_FAILED` with the status code in the message; a timeout (or
other transport error) fails `CONVERSION_FAILED`; and on a 2xx
response the fetch fails `CONVERSION_FAILED` with the
"not a valid PDF" message exactly when the content type does not
contain `application/pdf` AND the URL does not end in `.pdf` AND the
body's first 5 bytes are not `%PDF-`; otherwise the body bytes are
returned. -/
theorem download_pdf_from_url_spec (url : String) :
    (download_pdf_from_url url .timeout
        = .error ⟨"下载PDF文件超时", "CONVERSION_FAILED"⟩)
    ∧ (∀ status ct body, ¬ (200 ≤ status ∧ status ≤ 299) →
        download_pdf_from_url url (.response status ct body)
          = .error ⟨"下载PDF文件失败: HTTP " ++ toString status, "CONVERSION_FAILED"⟩)
    ∧ (∀ status ct body, 200 ≤ status → status ≤ 299 →
        ((download_pdf_from_url url (.response status ct body)
            = .error ⟨"下载PDF文件失败: URL返回的不是有效的PDF文件", "CONVERSION_FAILED"⟩)
          ↔ (¬ ("application/pdf".toList <:+: (strToLower ct).toList)
              ∧ ¬ (strEndsWith (strToLower url) ".pdf" = true)
              ∧ ¬ (pdfMagic.isPrefixOf body = true)))
        ∧ (("application/pdf".toList <:+: (strToLower ct).toList)
            ∨ strEndsWith (strToLower url) ".pdf" = true
            ∨ pdfMagic.isPrefixOf body = true →
          download_pdf_from_url url (.response status ct body) = .ok body)) := by
  refine ⟨rfl, fun status ct body hbad => ?_, fun status ct body h1 h2 => ?_⟩
  · simp only [download_pdf_from_url]
    rw [if_pos hbad]
  · have hok : ¬¬ (200 ≤ status ∧ status ≤ 299) := not_not_intro ⟨h1, h2⟩
    by_cases hc : ¬ ("application/pdf".toList <:+: (strToLower ct).toList)
        ∧ ¬ (strEndsWith (strToLower url) ".pdf" = true)
        ∧ ¬ (pdfMagic.isPrefixOf body = true)
    · refine ⟨?_, fun hd => absurd hd (by tauto)⟩
      simp only [download_pdf_from_url]
      rw [if_neg hok, if_pos hc]
      simpa using hc
    · refine ⟨?_, fun _ => ?_⟩
      · simp only [download_pdf_from_url]
        rw [if_neg hok, if_neg hc]
        simpa using hc
      · simp only [download_pdf_from_url]
        rw [if_neg hok, if_neg hc]

/-- Witness for C7: a 404 response fails with the status code in the
message, and a 200 response with a PDF content type returns the body
bytes. -/
theorem download_pdf_from_url_spec_witness :
    (download_pdf_from_url "http://host/x" (.response 404 "text/html" [])
      = .error ⟨"下载PDF文件失败: HTTP 404", "CONVERSION_FAILED"⟩)
    ∧ (download_pdf_from_url "http://host/x" (.response 200 "application/pdf" [1])
      = .ok [1]) := by
  refine ⟨(download_pdf_from_url_spec "http://host/x").2.1 404 "text/html" []
    (by omega), ?_⟩
  exact ((download_pdf_from_url_spec "http://host/x").2.2 200 "application/pdf" [1]
    (by omega) (by omega)).2 (Or.inl (by decide))
